import Mathlib

/-!
Shallow embedding of `src/app/screens/authentication-screen/authentication-screen.tsx`
from the galoy-mobile repository.  The file holds two React Native screens:

* `AuthenticationScreen` — biometric/PIN authentication gate;
* `SendBitcoinConfirmationScreen` — payment confirmation with multi-rail
  payment dispatch (intra-ledger username transfer, Lightning invoice with or
  without amount, on-chain transfer) and a five-valued status display.

External capabilities (i18n `translate`, `UsernameValidation.isValid`, the
currency converter hook, the GraphQL backend) are modelled as parameters: the
backend outcome of the single mutation a payment path performs is an
`Except String MutationResponse` (the `.error` case is a thrown/rejected
promise, caught by the `catch` block at the call site).
-/

namespace GaloyConfirmation

/-- The five-valued status enumeration of `SendBitcoinConfirmationScreen`
(`Status` / `StatusType` in the source). -/
inductive StatusType
  | idle
  | loading
  | pending
  | success
  | error
  deriving DecidableEq, Repr

/-- `CurrencyType` in the source: the string union `"USD" | "BTC"`. -/
inductive CurrencyType
  | USD
  | BTC
  deriving DecidableEq, Repr

/-- `MoneyAmount`: a value together with its currency. -/
structure MoneyAmount where
  value : Int
  currency : CurrencyType
  deriving DecidableEq, Repr

/-- An element of the visible error list (`{ message: string }`). -/
structure Message where
  message : String
  deriving DecidableEq, Repr

/-- A top-level GraphQL error (only the `message` field is read). -/
structure GraphQLError where
  message : String
  deriving DecidableEq, Repr

/-- The payload of a payment mutation (the `lnInvoicePaymentSend` /
`lnNoAmountInvoicePaymentSend` / `intraLedgerPaymentSend` /
`onChainPaymentSend` object): a `status` string and an `errors` list. -/
structure MutationPayload where
  status : String
  errors : List Message
  deriving DecidableEq, Repr

/-- A resolved mutation response: `{ data, errors }`, where `errors` is the
optional top-level GraphQL error list. -/
structure MutationResponse where
  data : MutationPayload
  errors : Option (List GraphQLError)
  deriving DecidableEq, Repr

/-- The local state of the confirmation screen that the payment logic
updates: `status` (`useState<StatusType>(Status.IDLE)`) and `errs`
(`useState<{message: string}[]>([])`). -/
structure ScreenState where
  status : StatusType
  errs : List Message
  deriving DecidableEq, Repr

/-- Initial value of the `status` state (`useState<StatusType>(Status.IDLE)`). -/
def initialStatus : StatusType := StatusType.idle

/-- Initial value of the `errs` state (`useState<...>([])`). -/
def initialErrs : List Message := []

/-- All five values of the status enumeration. -/
def allStatuses : List StatusType :=
  [StatusType.idle, StatusType.loading, StatusType.pending,
   StatusType.success, StatusType.error]

/-- The backend mutation a payment path invokes, with its `input` variables
exactly as the source builds them. -/
inductive MutationCall
  | intraLedger (recipient : String) (amount : Int) (memo : Option String)
  | lnInvoice (paymentRequest : String) (memo : Option String)
  | lnNoAmount (paymentRequest : String) (amount : Int) (memo : Option String)
  | onChain (address : String) (amount : Int) (memo : Option String)
  deriving DecidableEq, Repr

/-- Result of running one payment path: the final screen state, the backend
mutation that was invoked (if any), and whether `queryWallet` was refreshed. -/
structure PayOutcome where
  state : ScreenState
  call : Option MutationCall
  walletRefreshed : Bool
  deriving DecidableEq, Repr

/-- External capabilities of the screen: the i18n lookup `translate` and
`UsernameValidation.isValid`. -/
structure Env where
  translate : String → String
  isValidUsername : String → Bool

/-- The route parameters the payment logic reads
(`route.params` destructuring in the source). -/
structure RouteParams where
  address : String
  amountless : Bool
  invoice : String
  memo : Option String
  paymentType : String
  username : String
  referenceAmount : MoneyAmount
  primaryCurrency : CurrencyType
  deriving Repr

/-- `convertCurrency`: identity when `from === to`, otherwise defers to the
`currencyConverter` hook (modelled as the function argument `converter`). -/
def convertCurrency (converter : CurrencyType → CurrencyType → Int → Int)
    (amount : Int) (fr tgt : CurrencyType) : Int :=
  if fr = tgt then amount
  else converter fr tgt amount

/-- `paymentSatAmount = convertCurrency(referenceAmount.value,
referenceAmount.currency, "BTC")`. -/
def paymentSatAmountOf (converter : CurrencyType → CurrencyType → Int → Int)
    (referenceAmount : MoneyAmount) : Int :=
  convertCurrency converter referenceAmount.value referenceAmount.currency CurrencyType.BTC

/-- `handlePaymentReturn(status, errors)`: maps the returned status string to
screen state.  The `Bool` component records whether `queryWallet(client,
"network-only")` was run. -/
def handlePaymentReturn (status : String) (errors : List Message)
    (s : ScreenState) : ScreenState × Bool :=
  if status = "SUCCESS" then
    ({ s with status := StatusType.success }, true)
  else if status = "PENDING" then
    ({ s with status := StatusType.pending }, false)
  else
    ({ status := StatusType.error, errs := errors }, false)

/-- The fixed leading text of the message built by `handlePaymentError`. -/
def caughtErrorLead : String := "an error occured. try again later\n"

/-- `handlePaymentError(error)`: sets status to error and the error list to a
single message embedding the thrown error. -/
def handlePaymentError (error : String) (_s : ScreenState) : ScreenState :=
  { status := StatusType.error,
    errs := [{ message := caughtErrorLead ++ error }] }

/-- The common response unpacking of every payment path:
`errors ? errors.map(e => ({message: e.message})) : data.<mutation>.errors`. -/
def responseErrs (r : MutationResponse) : List Message :=
  match r.errors with
  | some es => es.map (fun e => { message := e.message })
  | none => r.data.errors

/-- Shared tail of every payment path after its local guard: set
`errs := []`, `status := LOADING`, invoke the mutation, and route the result
through `handlePaymentReturn` or (on a thrown error) `handlePaymentError`. -/
def runMutation (call : MutationCall)
    (outcome : Except String MutationResponse) : PayOutcome :=
  let loading : ScreenState := { status := StatusType.loading, errs := [] }
  match outcome with
  | Except.error err =>
      { state := handlePaymentError err loading,
        call := some call,
        walletRefreshed := false }
  | Except.ok r =>
      let ret := handlePaymentReturn r.data.status (responseErrs r) loading
      { state := ret.1,
        call := some call,
        walletRefreshed := ret.2 }

/-- `payUsername`. -/
def payUsername (env : Env) (username : String) (paymentSatAmount : Int)
    (memo : Option String) (outcome : Except String MutationResponse)
    (_s : ScreenState) : PayOutcome :=
  if !(env.isValidUsername username) then
    { state := { status := StatusType.error,
                 errs := [{ message := env.translate "SendBitcoinScreen.invalidUsername" }] },
      call := none,
      walletRefreshed := false }
  else
    runMutation (MutationCall.intraLedger username paymentSatAmount memo) outcome

/-- `payLightning`. -/
def payLightning (_env : Env) (invoice : String) (memo : Option String)
    (outcome : Except String MutationResponse) (_s : ScreenState) : PayOutcome :=
  runMutation (MutationCall.lnInvoice invoice memo) outcome

/-- `payAmountlessLightning`. -/
def payAmountlessLightning (env : Env) (invoice : String)
    (paymentSatAmount : Int) (memo : Option String)
    (outcome : Except String MutationResponse) (_s : ScreenState) : PayOutcome :=
  if paymentSatAmount = 0 then
    { state := { status := StatusType.error,
                 errs := [{ message := env.translate "SendBitcoinScreen.noAmount" }] },
      call := none,
      walletRefreshed := false }
  else
    runMutation (MutationCall.lnNoAmount invoice paymentSatAmount memo) outcome

/-- `payOnchain`. -/
def payOnchain (env : Env) (address : String) (paymentSatAmount : Int)
    (memo : Option String) (outcome : Except String MutationResponse)
    (_s : ScreenState) : PayOutcome :=
  if paymentSatAmount = 0 then
    { state := { status := StatusType.error,
                 errs := [{ message := env.translate "SendBitcoinScreen.noAmount" }] },
      call := none,
      walletRefreshed := false }
  else
    runMutation (MutationCall.onChain address paymentSatAmount memo) outcome

/-- `pay`: the payment-type dispatch. -/
def pay (env : Env) (p : RouteParams) (paymentSatAmount : Int)
    (outcome : Except String MutationResponse) (s : ScreenState) : PayOutcome :=
  if p.paymentType = "username" then
    payUsername env p.username paymentSatAmount p.memo outcome s
  else if p.paymentType = "lightning" then
    if p.amountless then
      payAmountlessLightning env p.invoice paymentSatAmount p.memo outcome s
    else
      payLightning env p.invoice p.memo outcome s
  else if p.paymentType = "onchain" then
    payOnchain env p.address paymentSatAmount p.memo outcome s
  else
    { state := s, call := none, walletRefreshed := false }

/-- `totalAmount = fee.value === null ? paymentSatAmount : paymentSatAmount + fee.value`. -/
def totalAmount (paymentSatAmount : Int) (feeValue : Option Int) : Int :=
  match feeValue with
  | none => paymentSatAmount
  | some v => paymentSatAmount + v

/-- `errorMessage`: the insufficient-balance banner text, non-empty exactly
when `totalAmount > balance`. -/
def errorMessage (env : Env) (total balance : Int) : String :=
  if total > balance then
    env.translate "SendBitcoinConfirmationScreen.totalExceed"
  else
    ""

/-- What pressing the confirmation button does. -/
inductive ButtonAction
  | pop (n : Nat)
  | payAction
  deriving DecidableEq, Repr

/-- The `onPress` handler of the confirmation button. -/
def buttonPress (status : StatusType) (errMsg : String) : ButtonAction :=
  if status = StatusType.success ∨ status = StatusType.pending ∨
      status = StatusType.error then
    ButtonAction.pop 2
  else if errMsg.length > 0 then
    ButtonAction.pop 1
  else
    ButtonAction.payAction

/-- The `title` prop of the confirmation button. -/
def buttonTitle (env : Env) (status : StatusType) (errMsg : String) : String :=
  if status = StatusType.success ∨ status = StatusType.pending ∨
      status = StatusType.error then
    env.translate "common.close"
  else if errMsg.length > 0 then
    env.translate "common.cancel"
  else
    env.translate "SendBitcoinConfirmationScreen.confirmPayment"

/-- The haptic-feedback `useEffect` on `status`: no trigger for `loading` and
`idle` (early return); `notificationError` for `pending`/`error`;
`notificationSuccess` for `success`. -/
def hapticOnStatus (status : StatusType) : Option String :=
  if status = StatusType.loading ∨ status = StatusType.idle then
    none
  else if status = StatusType.pending ∨ status = StatusType.error then
    some "notificationError"
  else if status = StatusType.success then
    some "notificationSuccess"
  else
    none

/-- The rendered `destination` line: username, abbreviated invoice, or
address depending on `paymentType`. -/
def destinationOf (p : RouteParams) : String :=
  if p.paymentType = "username" then
    p.username
  else if p.paymentType = "lightning" then
    p.invoice.take 18 ++ "..." ++ p.invoice.drop (p.invoice.length - 18)
  else if p.paymentType = "onchain" then
    p.address
  else
    ""

/-- The status-relevant observable render output of the confirmation screen:
what is drawn and what the confirmation button will do when pressed. -/
structure RenderModel where
  destination : String
  showConfirmationText : Bool
  showErrorBox : Bool
  buttonLoading : Bool
  title : String
  pressAction : ButtonAction
  haptic : Option String
  indicatorStatus : StatusType
  indicatorErrs : List Message
  deriving DecidableEq, Repr

/-- The render of the confirmation screen as a function of the screen state
and the insufficient-balance banner text. -/
def render (env : Env) (p : RouteParams) (errMsg : String)
    (s : ScreenState) : RenderModel :=
  { destination := destinationOf p,
    showConfirmationText := s.status = StatusType.idle,
    showErrorBox :=
      (!(s.status = StatusType.success ∨ s.status = StatusType.pending : Bool)) &&
        errMsg.length > 0,
    buttonLoading := s.status = StatusType.loading,
    title := buttonTitle env s.status errMsg,
    pressAction := buttonPress s.status errMsg,
    haptic := hapticOnStatus s.status,
    indicatorStatus := s.status,
    indicatorErrs := s.errs }

/-- A concrete environment for evaluating the model: identity translation
and a validator accepting every username. -/
def wEnv : Env :=
  { translate := fun key => key, isValidUsername := fun _ => true }

/-- A concrete environment whose validator rejects every username. -/
def wEnvInvalid : Env :=
  { translate := fun key => key, isValidUsername := fun _ => false }

/-- Concrete route parameters for evaluating the model. -/
def wParams : RouteParams :=
  { address := "bc1qexampleaddress",
    amountless := false,
    invoice := "lnbc1exampleinvoice",
    memo := none,
    paymentType := "username",
    username := "alice",
    referenceAmount := { value := 21, currency := CurrencyType.BTC },
    primaryCurrency := CurrencyType.BTC }

/-- A concrete successful mutation response. -/
def wResponse : MutationResponse :=
  { data := { status := "SUCCESS", errors := [] }, errors := none }

end GaloyConfirmation

namespace GaloyAuthentication

/-- `AuthenticationScreenPurpose` (from `utils/enum`). -/
inductive AuthPurpose
  | Authenticate
  | TurnOnAuthentication
  deriving DecidableEq, Repr

/-- An externally observable action of the authentication screen. -/
inductive AuthEffect
  | resetPinAttempts
  | navigationReplace (screen : String)
  | checkClipboard
  | setIsBiometricsEnabled
  deriving DecidableEq, Repr

/-- `handleAuthenticationSuccess`: the actions run, in order, on a successful
biometric authentication, dispatched on `screenPurpose`. -/
def handleAuthenticationSuccess (screenPurpose : AuthPurpose) : List AuthEffect :=
  match screenPurpose with
  | AuthPurpose.Authenticate =>
      [AuthEffect.resetPinAttempts,
       AuthEffect.navigationReplace "Primary",
       AuthEffect.checkClipboard]
  | AuthPurpose.TurnOnAuthentication =>
      [AuthEffect.setIsBiometricsEnabled]

/-- `handleAuthenticationFailure`: called when the user cancels or taps out
of the prompt; no action is taken. -/
def handleAuthenticationFailure : List AuthEffect := []

end GaloyAuthentication

namespace GaloyConfirmation

/-- C10: `convertCurrency` is the identity when source and target currencies
coincide: for every converter, amount and currency `c`,
`convertCurrency conv amount c c = amount`, and the result does not consult
the converter (replacing it with any other converter gives the same value). -/
theorem convertCurrency_same_identity :
    ∀ (conv conv' : CurrencyType → CurrencyType → Int → Int)
      (amount : Int) (c : CurrencyType),
      convertCurrency conv amount c c = amount ∧
      convertCurrency conv amount c c = convertCurrency conv' amount c c := by
  intro conv conv' amount c
  simp [convertCurrency]

/-- C7: the payment-confirmation status is always one of the five values
idle, loading, pending, success, error; it is initialised to idle, and every
state update of the screen's operations (`pay` with its precondition guards
and dispatch, `handlePaymentReturn`, `handlePaymentError`) keeps it within
this set. -/
theorem status_invariant :
    initialStatus = StatusType.idle ∧
    (∀ st : StatusType, st ∈ allStatuses) ∧
    (∀ (env : Env) (p : RouteParams) (amt : Int)
       (outcome : Except String MutationResponse) (s : ScreenState),
       (pay env p amt outcome s).state.status ∈ allStatuses) ∧
    (∀ (st : String) (errors : List Message) (s : ScreenState),
       (handlePaymentReturn st errors s).1.status ∈ allStatuses) ∧
    (∀ (e : String) (s : ScreenState),
       (handlePaymentError e s).status ∈ allStatuses) := by
  have hall : ∀ st : StatusType, st ∈ allStatuses := by
    intro st
    cases st <;> simp [allStatuses]
  exact ⟨rfl, hall,
    fun env p amt outcome s => hall _,
    fun st errors s => hall _,
    fun e s => hall _⟩

/-- C6: no retry — for every status in which the payment has reached a
terminal state (success, pending or error) and every banner text, pressing
the confirmation button pops two navigation screens and never dispatches
`pay` or any payment mutation. -/
theorem no_retry_terminal_status :
    ∀ errMsg : String,
      buttonPress StatusType.success errMsg = ButtonAction.pop 2 ∧
      buttonPress StatusType.pending errMsg = ButtonAction.pop 2 ∧
      buttonPress StatusType.error errMsg = ButtonAction.pop 2 ∧
      buttonPress StatusType.success errMsg ≠ ButtonAction.payAction ∧
      buttonPress StatusType.pending errMsg ≠ ButtonAction.payAction ∧
      buttonPress StatusType.error errMsg ≠ ButtonAction.payAction := by
  intro errMsg
  simp [buttonPress]

end GaloyConfirmation

namespace GaloyAuthentication

/-- C9: on a successful biometric authentication the screen's behaviour is
determined by the screen purpose — `Authenticate` resets the stored PIN
attempt counter, replaces the navigation stack with the Primary screen and
runs the clipboard check; `TurnOnAuthentication` sets the biometrics-enabled
flag in secure storage; a failed or cancelled prompt performs no action. -/
theorem auth_purpose_dispatch :
    handleAuthenticationSuccess AuthPurpose.Authenticate =
      [AuthEffect.resetPinAttempts,
       AuthEffect.navigationReplace "Primary",
       AuthEffect.checkClipboard] ∧
    handleAuthenticationSuccess AuthPurpose.TurnOnAuthentication =
      [AuthEffect.setIsBiometricsEnabled] ∧
    handleAuthenticationFailure = [] :=
  ⟨rfl, rfl, rfl⟩

end GaloyAuthentication

namespace GaloyConfirmation

/-- C1: for every payment that passes its local precondition check, `pay`
dispatches on `paymentType` as a static lookup to exactly one backend
mutation — `"username"` invokes `intraLedgerPaymentSend` (recipient, amount
in sats, memo); `"lightning"` with `amountless` invokes
`lnNoAmountInvoicePaymentSend` (paymentRequest, amount, memo); `"lightning"`
without `amountless` invokes `lnInvoicePaymentSend` (paymentRequest, memo);
`"onchain"` invokes `onChainPaymentSend` (address, amount, memo); any other
`paymentType` invokes no mutation. -/
theorem pay_dispatch_static :
    ∀ (env : Env) (p : RouteParams) (amt : Int)
      (outcome : Except String MutationResponse) (s : ScreenState),
      env.isValidUsername p.username = true →
      amt ≠ 0 →
      ((p.paymentType = "username" →
          (pay env p amt outcome s).call =
            some (MutationCall.intraLedger p.username amt p.memo)) ∧
       (p.paymentType = "lightning" → p.amountless = true →
          (pay env p amt outcome s).call =
            some (MutationCall.lnNoAmount p.invoice amt p.memo)) ∧
       (p.paymentType = "lightning" → p.amountless = false →
          (pay env p amt outcome s).call =
            some (MutationCall.lnInvoice p.invoice p.memo)) ∧
       (p.paymentType = "onchain" →
          (pay env p amt outcome s).call =
            some (MutationCall.onChain p.address amt p.memo)) ∧
       (p.paymentType ≠ "username" → p.paymentType ≠ "lightning" →
        p.paymentType ≠ "onchain" →
          (pay env p amt outcome s).call = none)) := by
  intro env p amt outcome s hvalid hamt
  refine ⟨?_, ?_, ?_, ?_, ?_⟩
  · intro hty
    cases outcome <;>
      simp [pay, hty, payUsername, hvalid, runMutation]
  · intro hty hless
    have hne : p.paymentType ≠ "username" := by
      rw [hty]; decide
    cases outcome <;>
      simp [pay, hty, hne, hless, payAmountlessLightning, hamt, runMutation]
  · intro hty hless
    have hne : p.paymentType ≠ "username" := by
      rw [hty]; decide
    cases outcome <;>
      simp [pay, hty, hne, hless, payLightning, runMutation]
  · intro hty
    have hne : p.paymentType ≠ "username" := by
      rw [hty]; decide
    have hne' : p.paymentType ≠ "lightning" := by
      rw [hty]; decide
    cases outcome <;>
      simp [pay, hty, hne, hne', payOnchain, hamt, runMutation]
  · intro h1 h2 h3
    simp [pay, h1, h2, h3]

/-- Witness for C1: with a concrete environment, route parameters of payment
type `"username"`, amount 5 and a successful backend response, `pay` invokes
the intra-ledger mutation with recipient `"alice"`, amount 5 and no memo. -/
theorem pay_dispatch_static_witness :
    (pay wEnv wParams 5 (Except.ok wResponse)
        { status := StatusType.idle, errs := [] }).call =
      some (MutationCall.intraLedger "alice" 5 none) :=
  (pay_dispatch_static wEnv wParams 5 (Except.ok wResponse)
      { status := StatusType.idle, errs := [] } rfl (by decide)).1 rfl

end GaloyConfirmation

namespace GaloyConfirmation

/-- C2: on every payment path, when the mutation call throws, the exception
is caught at the call site, status is set to error, and the error list
becomes a single-element list whose message embeds the thrown error (the
fixed lead text followed by the error); no wallet refresh happens. -/
theorem payment_error_caught :
    ∀ (env : Env) (u inv addr : String) (amt : Int) (memo : Option String)
      (s : ScreenState) (e : String),
      (env.isValidUsername u = true →
        payUsername env u amt memo (Except.error e) s =
          { state := { status := StatusType.error,
                       errs := [{ message := caughtErrorLead ++ e }] },
            call := some (MutationCall.intraLedger u amt memo),
            walletRefreshed := false }) ∧
      (payLightning env inv memo (Except.error e) s =
          { state := { status := StatusType.error,
                       errs := [{ message := caughtErrorLead ++ e }] },
            call := some (MutationCall.lnInvoice inv memo),
            walletRefreshed := false }) ∧
      (amt ≠ 0 →
        payAmountlessLightning env inv amt memo (Except.error e) s =
          { state := { status := StatusType.error,
                       errs := [{ message := caughtErrorLead ++ e }] },
            call := some (MutationCall.lnNoAmount inv amt memo),
            walletRefreshed := false }) ∧
      (amt ≠ 0 →
        payOnchain env addr amt memo (Except.error e) s =
          { state := { status := StatusType.error,
                       errs := [{ message := caughtErrorLead ++ e }] },
            call := some (MutationCall.onChain addr amt memo),
            walletRefreshed := false }) := by
  intro env u inv addr amt memo s e
  refine ⟨?_, ?_, ?_, ?_⟩
  · intro hvalid
    simp [payUsername, hvalid, runMutation, handlePaymentError]
  · simp [payLightning, runMutation, handlePaymentError]
  · intro hamt
    simp [payAmountlessLightning, hamt, runMutation, handlePaymentError]
  · intro hamt
    simp [payOnchain, hamt, runMutation, handlePaymentError]

/-- Witness for C2: with a concrete environment, a thrown error `"net down"`
on the username path yields error status and the single caught-error
message. -/
theorem payment_error_caught_witness :
    payUsername wEnv "alice" 5 none (Except.error "net down")
        { status := StatusType.idle, errs := [] } =
      { state := { status := StatusType.error,
                   errs := [{ message := caughtErrorLead ++ "net down" }] },
        call := some (MutationCall.intraLedger "alice" 5 none),
        walletRefreshed := false } :=
  (payment_error_caught wEnv "alice" "lnbc1" "bc1q" 5 none
      { status := StatusType.idle, errs := [] } "net down").1 rfl

/-- C3: `handlePaymentReturn` maps the returned status string to screen
state — `"SUCCESS"` sets status to success and refreshes the wallet query,
`"PENDING"` sets status to pending, and every other returned status sets
status to error with the given errors as the visible list; the list a
payment path passes is the top-level GraphQL error messages when present,
and otherwise the mutation payload's `errors` field; a resolved lightning
payment routes its response through exactly this handler from the loading
state. -/
theorem handle_payment_return_mapping :
    ∀ (errors : List Message) (s : ScreenState) (r : MutationResponse),
      (handlePaymentReturn "SUCCESS" errors s =
        ({ s with status := StatusType.success }, true)) ∧
      (handlePaymentReturn "PENDING" errors s =
        ({ s with status := StatusType.pending }, false)) ∧
      (∀ st : String, st ≠ "SUCCESS" → st ≠ "PENDING" →
        handlePaymentReturn st errors s =
          ({ status := StatusType.error, errs := errors }, false)) ∧
      (∀ es : List GraphQLError, r.errors = some es →
        responseErrs r = es.map fun e => { message := e.message }) ∧
      (r.errors = none → responseErrs r = r.data.errors) ∧
      (∀ (env : Env) (inv : String) (memo : Option String) (s' : ScreenState),
        payLightning env inv memo (Except.ok r) s' =
          { state := (handlePaymentReturn r.data.status (responseErrs r)
              { status := StatusType.loading, errs := [] }).1,
            call := some (MutationCall.lnInvoice inv memo),
            walletRefreshed := (handlePaymentReturn r.data.status (responseErrs r)
              { status := StatusType.loading, errs := [] }).2 }) := by
  intro errors s r
  refine ⟨?_, ?_, ?_, ?_, ?_, ?_⟩
  · simp [handlePaymentReturn]
  · simp [handlePaymentReturn]
  · intro st h1 h2
    simp [handlePaymentReturn, h1, h2]
  · intro es hes
    simp [responseErrs, hes]
  · intro hnone
    simp [responseErrs, hnone]
  · intro env inv memo s'
    rfl

/-- Witness for C3: a returned status `"FAILED"` with a top-level GraphQL
error stores that error's message and sets status to error. -/
theorem handle_payment_return_mapping_witness :
    handlePaymentReturn "FAILED" [{ message := "bad route" }]
        { status := StatusType.loading, errs := [] } =
      ({ status := StatusType.error, errs := [{ message := "bad route" }] }, false) ∧
    responseErrs
        { data := { status := "FAILED", errors := [{ message := "payload err" }] },
          errors := some [{ message := "top err" }] } =
      [{ message := "top err" }] :=
  ⟨((handle_payment_return_mapping [{ message := "bad route" }]
        { status := StatusType.loading, errs := [] } wResponse).2.2.1
      "FAILED" (by decide) (by decide)),
   ((handle_payment_return_mapping []
        { status := StatusType.loading, errs := [] }
        { data := { status := "FAILED", errors := [{ message := "payload err" }] },
          errors := some [{ message := "top err" }] }).2.2.2.1
      [{ message := "top err" }] rfl)⟩

end GaloyConfirmation

namespace GaloyConfirmation

/-- C4: each payment path checks its local precondition before sending
anything — `payUsername` with an invalid username, and
`payAmountlessLightning` or `payOnchain` with a converted satoshi amount of
0, set status to error with the single fixed message (invalid-username or
no-amount respectively) and return without invoking any mutation and without
refreshing the wallet, whatever the backend would have answered. -/
theorem local_precondition_guards :
    ∀ (env : Env) (u inv addr : String) (amt : Int) (memo : Option String)
      (outcome : Except String MutationResponse) (s : ScreenState),
      (env.isValidUsername u = false →
        payUsername env u amt memo outcome s =
          { state := { status := StatusType.error,
                       errs := [{ message :=
                         env.translate "SendBitcoinScreen.invalidUsername" }] },
            call := none,
            walletRefreshed := false }) ∧
      (payAmountlessLightning env inv 0 memo outcome s =
          { state := { status := StatusType.error,
                       errs := [{ message :=
                         env.translate "SendBitcoinScreen.noAmount" }] },
            call := none,
            walletRefreshed := false }) ∧
      (payOnchain env addr 0 memo outcome s =
          { state := { status := StatusType.error,
                       errs := [{ message :=
                         env.translate "SendBitcoinScreen.noAmount" }] },
            call := none,
            walletRefreshed := false }) := by
  intro env u inv addr amt memo outcome s
  refine ⟨?_, ?_, ?_⟩
  · intro hinvalid
    simp [payUsername, hinvalid]
  · simp [payAmountlessLightning]
  · simp [payOnchain]

/-- Witness for C4: with a rejecting validator, `payUsername` reports the
fixed invalid-username message and invokes no mutation, even though a
successful backend response was available. -/
theorem local_precondition_guards_witness :
    payUsername wEnvInvalid "alice" 5 none (Except.ok wResponse)
        { status := StatusType.idle, errs := [] } =
      { state := { status := StatusType.error,
                   errs := [{ message := "SendBitcoinScreen.invalidUsername" }] },
        call := none,
        walletRefreshed := false } :=
  (local_precondition_guards wEnvInvalid "alice" "lnbc1" "bc1q" 5 none
      (Except.ok wResponse) { status := StatusType.idle, errs := [] }).1 rfl

/-- C5: whenever the total amount (the satoshi amount when the fee is null,
the satoshi amount plus the fee otherwise) strictly exceeds the BTC wallet
balance and the status is none of success, pending, error, the confirmation
button is labelled with the cancel text and pressing it pops one navigation
screen — it never dispatches `pay`.  (The insufficient-balance banner text
is assumed non-empty, as every i18n rendition of it is.) -/
theorem insufficient_balance_cancel :
    ∀ (env : Env) (amt balance : Int) (feeValue : Option Int) (st : StatusType),
      totalAmount amt feeValue > balance →
      st ≠ StatusType.success → st ≠ StatusType.pending → st ≠ StatusType.error →
      (env.translate "SendBitcoinConfirmationScreen.totalExceed").length > 0 →
      buttonTitle env st (errorMessage env (totalAmount amt feeValue) balance) =
        env.translate "common.cancel" ∧
      buttonPress st (errorMessage env (totalAmount amt feeValue) balance) =
        ButtonAction.pop 1 ∧
      buttonPress st (errorMessage env (totalAmount amt feeValue) balance) ≠
        ButtonAction.payAction := by
  intro env amt balance feeValue st hgt hs hp he hlen
  have hmsg : errorMessage env (totalAmount amt feeValue) balance =
      env.translate "SendBitcoinConfirmationScreen.totalExceed" := by
    simp [errorMessage, hgt]
  rw [hmsg]
  refine ⟨?_, ?_, ?_⟩
  · simp [buttonTitle, hs, hp, he, hlen]
  · simp [buttonPress, hs, hp, he, hlen]
  · simp [buttonPress, hs, hp, he, hlen]

/-- Witness for C5: with the identity translation, total 11 sats (10 plus a
1-sat fee) against a 5-sat balance in the idle state, the button carries the
cancel label and pressing it pops one screen. -/
theorem insufficient_balance_cancel_witness :
    buttonTitle wEnv StatusType.idle
        (errorMessage wEnv (totalAmount 10 (some 1)) 5) = "common.cancel" ∧
    buttonPress StatusType.idle
        (errorMessage wEnv (totalAmount 10 (some 1)) 5) = ButtonAction.pop 1 :=
  ⟨(insufficient_balance_cancel wEnv 10 5 (some 1) StatusType.idle
      (by decide) (by decide) (by decide) (by decide) (by decide)).1,
   (insufficient_balance_cancel wEnv 10 5 (some 1) StatusType.idle
      (by decide) (by decide) (by decide) (by decide) (by decide)).2.1⟩

end GaloyConfirmation

namespace GaloyConfirmation

/-- C8 counterexample: two screen states differing only in the status value
(success vs. idle, same empty error list) differ in observable effects other
than the rendered button title and text content — the haptic-feedback
trigger fired by the status effect and the button's press action both
change, so the status enumeration does not drive button/text display
alone. -/
theorem status_frame_counterexample :
    hapticOnStatus StatusType.success ≠ hapticOnStatus StatusType.idle ∧
    (render wEnv wParams "" { status := StatusType.success, errs := [] }).haptic ≠
      (render wEnv wParams "" { status := StatusType.idle, errs := [] }).haptic ∧
    (render wEnv wParams "" { status := StatusType.success, errs := [] }).pressAction ≠
      (render wEnv wParams "" { status := StatusType.idle, errs := [] }).pressAction := by
  refine ⟨?_, ?_, ?_⟩ <;> decide

/-- C8 amended: states differing only in status render the same destination
and pass the same error list to the status indicator, and a payment dispatch
from them invokes the same mutation and the same wallet refresh; the status
value additionally drives the button press action, the loading spinner, the
text visibility and the haptic notification (as the counterexample shows),
not button title and text alone. -/
theorem status_frame_amended :
    ∀ (env : Env) (p : RouteParams) (errMsg : String) (errs : List Message)
      (st st' : StatusType) (amt : Int) (outcome : Except String MutationResponse),
      (render env p errMsg { status := st, errs := errs }).destination =
        (render env p errMsg { status := st', errs := errs }).destination ∧
      (render env p errMsg { status := st, errs := errs }).indicatorErrs =
        (render env p errMsg { status := st', errs := errs }).indicatorErrs ∧
      (pay env p amt outcome { status := st, errs := errs }).call =
        (pay env p amt outcome { status := st', errs := errs }).call ∧
      (pay env p amt outcome { status := st, errs := errs }).walletRefreshed =
        (pay env p amt outcome { status := st', errs := errs }).walletRefreshed := by
  intro env p errMsg errs st st' amt outcome
  refine ⟨rfl, rfl, ?_, ?_⟩ <;>
  · unfold pay
    split_ifs <;> rfl

end GaloyConfirmation
